import Mathlib

/-!
Verification of the delivery-robot state manager
(`realrobotshow_ctrl/state_manager.py`).

The Python class `StateManager` is embedded shallowly: its mutable fields
become a `Machine` record, each method becomes a function `Machine → Machine`
(with extra arguments for the message a callback receives), and the attributes
that `_init_variables` never sets (`_navigator_finished`, `_navigator_feed`,
`_delivery_location`) are `Option`s whose `none` models the unset attribute;
reading such an attribute while `none` raises `AttributeError`, recorded in
the `raised` flag.  Observable outputs (navigation goals, localization
requests, order results, sounds, publications, writes to the current-state
field) are accumulated in log fields so that theorems can count them.

Two ghost fields instrument the navigation protocol: `nav_outstanding` is
true from `send_goal` until the terminal done-callback, and `double_request`
latches if a goal is ever sent while one is outstanding.
-/

/-- The six states of the machine.  The source represents them as the string
constants `STATE_INITIALIZATION` .. `STATE_ON_ERROR`. -/
inductive RobotState where
  | INITIALIZATION
  | GOTO_KITCHEN
  | AT_KITCHEN
  | GOTO_TABLE
  | AT_TABLE
  | ON_ERROR
deriving DecidableEq, Repr

/-- The string constant the source uses for each state. -/
def RobotState.str : RobotState → String
  | .INITIALIZATION => "INITIALIZATION"
  | .GOTO_KITCHEN => "GOTO_KITCHEN"
  | .AT_KITCHEN => "AT_KITCHEN"
  | .GOTO_TABLE => "GOTO_TABLE"
  | .AT_TABLE => "AT_TABLE"
  | .ON_ERROR => "ON_ERROR"

/-- One `DigitalInputEvent` sample: value 0 is the green button, value 1 the
red button (comment in `_process_button`). -/
structure ButtonSample where
  green : Bool
  red : Bool
deriving DecidableEq, Repr

/-- Approach mode of a `NavigateToGoal`.  Modelled from the spec: the
`yocs_msgs` message definition is not part of this repository; the spec calls
the parameter the approach mode, with value on or off. -/
inductive ApproachType where
  | APPROACH_ON
  | APPROACH_OFF
deriving DecidableEq, Repr

/-- A `yocs_msgs.NavigateToGoal` as `_request_navigator` fills it. -/
structure NavigateToGoal where
  location : String
  approach_type : ApproachType
  num_retry : Nat
  timeout : Rat
  distance : Rat
deriving DecidableEq, Repr

/-- A `simple_delivery_msgs.DeliverOrderResult`. -/
structure DeliverOrderResult where
  message : String
  success : Bool
deriving DecidableEq, Repr

/-- The four ros parameters `_init_variables` reads (immutable after
startup).  Timeouts and the table distance are numeric parameters that the
code only passes through, embedded as rationals. -/
structure Config where
  nav_kitchen_timeout : Rat
  nav_table_timeout : Rat
  nav_retry : Nat
  nav_table_distance : Rat
deriving DecidableEq, Repr

/-- The default parameter values of `_init_variables`. -/
def default_config : Config :=
  { nav_kitchen_timeout := 300
    nav_table_timeout := 300
    nav_retry := 3
    nav_table_distance := 5 }

/-- The sound file names of the `StateManager` class attributes. -/
def confirm_sound : String := "kaku.wav"

def retry_sound : String := "moo.wav"

def navi_failed_sound : String := "angry_cat.wav"

def at_table_sound : String := "lion.wav"

def enjoy_meal_sound : String := "meow.wav"

def bab_sound : String := "pab.wav"

/-- The mutable state of a `StateManager` object, plus ghost and log
fields.  `localized` embeds the source field `_initialized` (set by the
localization callback, consumed by the initialization handler). -/
structure Machine where
  current_state : RobotState
  localized : Bool
  previous_button : Option ButtonSample
  init_requested : Bool
  delivery_order_received : Bool
  customer_confirm : Bool
  order_in_progress : Bool
  delivery_location : Option String
  navigator_finished : Option Bool
  navigator_feed : Option String
  nav_outstanding : Bool
  double_request : Bool
  raised : Bool
  localize_requests : Nat
  nav_requests : List NavigateToGoal
  order_results : List DeliverOrderResult
  sounds : List String
  state_writes : List RobotState
  debug_pubs : List String
  feedback_pubs : List String
  last_blink_led : Nat
deriving DecidableEq, Repr

/-- `_init_variables`: the object right after construction.  Note that the
current state starts at `ON_ERROR`, and that `_navigator_finished`,
`_navigator_feed` and `_delivery_location` are left unset. -/
def init_machine : Machine :=
  { current_state := .ON_ERROR
    localized := false
    previous_button := none
    init_requested := false
    delivery_order_received := false
    customer_confirm := false
    order_in_progress := false
    delivery_location := none
    navigator_finished := none
    navigator_feed := none
    nav_outstanding := false
    double_request := false
    raised := false
    localize_requests := 0
    nav_requests := []
    order_results := []
    sounds := []
    state_writes := []
    debug_pubs := []
    feedback_pubs := []
    last_blink_led := 2 }

/-- Every assignment `self._current_state = s` in the source goes through
this helper, which also logs the write. -/
def write_state (m : Machine) (s : RobotState) : Machine :=
  { m with current_state := s, state_writes := m.state_writes ++ [s] }

/-- Modelled from the spec: `check_button_event` lives in the `utils` module,
which is not among the repository files.  Per the spec, button edges are
computed by diffing consecutive raw samples with rising-edge detection (a
transition of a channel from false to true); channel 0 is green, channel 1
red.  Returns `(green_edge, red_edge)`. -/
def check_button_event (prev cur : ButtonSample) : Bool × Bool :=
  (!prev.green && cur.green, !prev.red && cur.red)

/-- `_process_button`: the button-topic callback.  On the first sample it
only stores it.  Afterwards, on a green rising edge it moves
`ON_ERROR → INITIALIZATION` and, if (still) at the table, raises the customer
confirmation flag.  The guard `if not self._current_state` in the source is
dead code: the field always holds one of the six non-empty state strings, all
truthy, so that branch is omitted here. -/
def process_button (m : Machine) (msg : ButtonSample) : Machine :=
  match m.previous_button with
  | none => { m with previous_button := some msg }
  | some prev =>
    let green := (check_button_event prev msg).1
    let m1 := if green && (m.current_state = .ON_ERROR : Bool)
      then write_state m .INITIALIZATION else m
    let m2 := if green && (m1.current_state = .AT_TABLE : Bool)
      then { m1 with customer_confirm := true } else m1
    { m2 with previous_button := some msg }

/-- `_process_localized`: the localization callback sets the flag. -/
def process_localized (m : Machine) : Machine :=
  { m with localized := true }

/-- `_process_deliver_order`: the order-goal callback.  Away from the
kitchen the goal is accepted and immediately finished with a failure result;
at the kitchen the delivery location and the received flag are stored. -/
def process_deliver_order (m : Machine) (loc : String) : Machine :=
  if m.current_state ≠ .AT_KITCHEN then
    { m with order_results := m.order_results ++
        [{ message := "Robot is not at kitchen. Ignore the order!", success := false }] }
  else
    { m with delivery_location := some loc, delivery_order_received := true }

/-- `_process_deliver_order_preempt` is an explicit no-op. -/
def process_deliver_order_preempt (m : Machine) : Machine := m

/-- `_request_navigator`: build a goal, send it, then clear
`_navigator_finished`.  Ghost bookkeeping: `double_request` latches if a goal
goes out while one is still outstanding. -/
def request_navigator (m : Machine) (location : String)
    (approach_type : ApproachType) (num_retry : Nat) (timeout : Rat)
    (distance : Rat) : Machine :=
  { m with
    double_request := m.double_request || m.nav_outstanding
    nav_outstanding := true
    nav_requests := m.nav_requests ++
      [{ location := location, approach_type := approach_type,
         num_retry := num_retry, timeout := timeout, distance := distance }]
    navigator_finished := some false }

/-- `_navigator_done`: the terminal navigation callback.  On failure it plays
the failure sound and writes `ON_ERROR` into the current-state field, then in
every case marks the navigator finished.  It resolves the outstanding
request. -/
def navigator_done (m : Machine) (success : Bool) : Machine :=
  let m := { m with nav_outstanding := false }
  let m := if success = false then
      write_state { m with sounds := m.sounds ++ [navi_failed_sound] } .ON_ERROR
    else m
  { m with navigator_finished := some true }

/-- `_navigator_feedback`: stores the formatted progress text and plays the
retry sound on a retry signal. -/
def navigator_feedback (m : Machine) (distance : Rat) (message : String)
    (retry : Bool) : Machine :=
  let feed := "Distance : " ++ toString distance ++ ", Message : " ++ message
  let m := { m with navigator_feed := some feed }
  if retry then { m with sounds := m.sounds ++ [retry_sound] } else m

/-- `_state_initialization`: request localization once (latched), and once
localized request navigation to the kitchen and move to `GOTO_KITCHEN`.
Note the first block clears the `localized` flag whenever the latch is
unset. -/
def state_initialization (cfg : Config) (m : Machine) : Machine :=
  let m := if !m.init_requested then
      { m with localized := false
               localize_requests := m.localize_requests + 1
               init_requested := true
               sounds := m.sounds ++ [confirm_sound] }
    else m
  if m.localized then
    let m := request_navigator m "kitchen" .APPROACH_ON cfg.nav_retry
      cfg.nav_kitchen_timeout 0
    let m := write_state m .GOTO_KITCHEN
    { m with init_requested := false }
  else m

/-- `_state_goto_kitchen`: on arrival become `AT_KITCHEN`; if an order was in
progress, clear it and report the terminal result, whose `success` field the
source sets to `False` while its message reads Delivery Success. -/
def state_goto_kitchen (m : Machine) : Machine :=
  match m.navigator_finished with
  | none => { m with raised := true }
  | some fin =>
    if fin then
      let m := write_state m .AT_KITCHEN
      let m := if m.order_in_progress then
          { m with order_in_progress := false
                   order_results := m.order_results ++
                     [{ message := "Delivery Success!", success := false }] }
        else m
      { m with sounds := m.sounds ++ [bab_sound] }
    else m

/-- `_state_at_kitchen`: when an order has been received, consume it, mark it
in progress, request navigation to its destination and become `GOTO_TABLE`.
The source reads `self._delivery_location` after setting the two flags, so an
unset location raises only then. -/
def state_at_kitchen (cfg : Config) (m : Machine) : Machine :=
  if m.delivery_order_received then
    let m := { m with delivery_order_received := false, order_in_progress := true }
    match m.delivery_location with
    | none => { m with raised := true }
    | some loc =>
      let m := request_navigator m loc .APPROACH_ON cfg.nav_retry
        cfg.nav_table_timeout cfg.nav_table_distance
      let m := write_state m .GOTO_TABLE
      { m with sounds := m.sounds ++ [confirm_sound] }
  else m

/-- `_state_goto_table`: on arrival become `AT_TABLE` and play the arrival
sound. -/
def state_goto_table (m : Machine) : Machine :=
  match m.navigator_finished with
  | none => { m with raised := true }
  | some fin =>
    if fin then
      let m := write_state m .AT_TABLE
      { m with sounds := m.sounds ++ [at_table_sound] }
    else m

/-- `_state_at_table`: on customer confirmation, clear it, play the cue and
head back to the kitchen with the literal parameters retry 3, timeout 300,
distance 0. -/
def state_at_table (m : Machine) : Machine :=
  if m.customer_confirm then
    let m := { m with customer_confirm := false, sounds := m.sounds ++ [enjoy_meal_sound] }
    let m := request_navigator m "kitchen" .APPROACH_ON 3 300 0
    write_state m .GOTO_KITCHEN
  else m

/-- `_state_on_error`: pass. -/
def state_on_error (m : Machine) : Machine := m

/-- `self._states[self._current_state]()`: dispatch one handler per tick. -/
def tick_handler (cfg : Config) (m : Machine) : Machine :=
  match m.current_state with
  | .INITIALIZATION => state_initialization cfg m
  | .GOTO_KITCHEN => state_goto_kitchen m
  | .AT_KITCHEN => state_at_kitchen cfg m
  | .GOTO_TABLE => state_goto_table m
  | .AT_TABLE => state_at_table m
  | .ON_ERROR => state_on_error m

/-- `_logging`: publish the state string; while an order is in progress also
publish order feedback built from `self._navigator_feed` — an attribute that
only the navigation feedback callback ever sets. -/
def logging (m : Machine) : Machine :=
  let m := { m with debug_pubs := m.debug_pubs ++ [m.current_state.str] }
  if m.order_in_progress then
    match m.navigator_feed with
    | none => { m with raised := true }
    | some feed =>
      { m with feedback_pubs := m.feedback_pubs ++
          ["Status : " ++ m.current_state.str ++ "  [" ++ feed ++ "]"] }
  else m

/-- `_blink_leds`: advance the alternation phase (the LED publications
themselves are pure outputs and not modelled further). -/
def blink_leds (m : Machine) : Machine :=
  { m with last_blink_led := (m.last_blink_led % 2) + 1 }

/-- The control-loop state: the object plus the sub-rate counter `t` of
`spin` (initialised to 2). -/
structure Sys where
  m : Machine
  t : Nat
deriving DecidableEq, Repr

/-- One iteration of the `spin` loop: run the current state handler, advance
`t`, and on `t = 1` run `_logging` and `_blink_leds`. -/
def loop_iter (cfg : Config) (s : Sys) : Sys :=
  let m := tick_handler cfg s.m
  let t := (s.t % 5) + 1
  if t = 1 then { m := blink_leds (logging m), t := t } else { m := m, t := t }

/-- The asynchronous events that can reach the object: one control-loop
iteration, a button sample, the localization callback, an order goal, the
terminal navigation callback and a navigation feedback callback. -/
inductive Event where
  | tick
  | button (msg : ButtonSample)
  | localizedMsg
  | orderGoal (loc : String)
  | navDone (success : Bool)
  | navFeedback (distance : Rat) (message : String) (retry : Bool)
deriving DecidableEq, Repr

/-- Deliver one event.  A terminal navigation callback can only arrive for an
outstanding request (the navigation protocol resolves each sent goal exactly
once), so `navDone` is a no-op when nothing is in flight. -/
def step (cfg : Config) (s : Sys) : Event → Sys
  | .tick => loop_iter cfg s
  | .button msg => { s with m := process_button s.m msg }
  | .localizedMsg => { s with m := process_localized s.m }
  | .orderGoal loc => { s with m := process_deliver_order s.m loc }
  | .navDone success =>
      if s.m.nav_outstanding then { s with m := navigator_done s.m success } else s
  | .navFeedback d msg r => { s with m := navigator_feedback s.m d msg r }

/-- Run the system from construction through a sequence of events. -/
def run (cfg : Config) (es : List Event) : Sys :=
  es.foldl (step cfg) { m := init_machine, t := 2 }

/-! ## Helper lemmas on the field effects of the small operations -/

theorem write_state_current (m : Machine) (s : RobotState) :
    (write_state m s).current_state = s := rfl

theorem write_state_writes (m : Machine) (s : RobotState) :
    (write_state m s).state_writes = m.state_writes ++ [s] := rfl

theorem logging_current (m : Machine) :
    (logging m).current_state = m.current_state := by
  simp only [logging]
  split <;> first | rfl | (split <;> rfl)

theorem logging_writes (m : Machine) :
    (logging m).state_writes = m.state_writes := by
  simp only [logging]
  split <;> first | rfl | (split <;> rfl)

theorem blink_current (m : Machine) :
    (blink_leds m).current_state = m.current_state := rfl

theorem blink_writes (m : Machine) :
    (blink_leds m).state_writes = m.state_writes := rfl

/-! ## C1: who writes the current-state field -/

/-- Claim C1 counterexample: the claim says no event-source callback ever
writes the state field directly, but the button callback alone (two samples,
the second a green rising edge, no tick in between) changes the current
state of a freshly constructed machine from `ON_ERROR` to `INITIALIZATION`. -/
theorem button_callback_writes_current_state :
    (process_button (process_button init_machine ⟨false, false⟩)
        ⟨true, false⟩).current_state ≠
      (process_button init_machine ⟨false, false⟩).current_state := by
  decide

/-- Claim C1 amended: the localization, order-goal, order-preempt and
navigation-feedback callbacks never write the current-state field; the
navigation done-callback writes it (to `ON_ERROR`) exactly on failure; and
the button callback either leaves it unchanged or moves it from `ON_ERROR`
to `INITIALIZATION`. -/
theorem callback_state_write_discipline (m : Machine) (loc : String) (d : Rat)
    (msg : String) (r su : Bool) (btn : ButtonSample) :
    (process_localized m).current_state = m.current_state ∧
    (process_deliver_order m loc).current_state = m.current_state ∧
    (navigator_feedback m d msg r).current_state = m.current_state ∧
    (process_deliver_order_preempt m).current_state = m.current_state ∧
    ((navigator_done m su).current_state =
      if su then m.current_state else .ON_ERROR) ∧
    ((process_button m btn).current_state = m.current_state ∨
      (m.current_state = .ON_ERROR ∧
        (process_button m btn).current_state = .INITIALIZATION)) := by
  refine ⟨rfl, ?_, ?_, rfl, ?_, ?_⟩
  · simp only [process_deliver_order]
    split <;> rfl
  · simp only [navigator_feedback]
    split <;> rfl
  · cases su <;> simp [navigator_done, write_state]
  · cases hp : m.previous_button with
    | none => exact Or.inl (by simp [process_button, hp])
    | some prev =>
      simp only [process_button, hp, check_button_event]
      split_ifs with h1 h2 h2 <;> simp_all [write_state]

/-! ## C4 and C6: order acceptance and rejection -/

/-- Claim C4 counterexample: after reaching the kitchen, a first order for
table-1 is accepted; a second order arriving before the next tick (the
machine is still `AT_KITCHEN`) is accepted again — no rejection result is
reported — and overwrites the pending destination with table-2. -/
theorem second_order_while_pending_overwrites :
    (run default_config
      [Event.button ⟨false, false⟩, Event.button ⟨true, false⟩, Event.tick,
       Event.localizedMsg, Event.tick, Event.navDone true, Event.tick,
       Event.orderGoal "table-1",
       Event.orderGoal "table-2"]).m.delivery_location = some "table-2" ∧
    (run default_config
      [Event.button ⟨false, false⟩, Event.button ⟨true, false⟩, Event.tick,
       Event.localizedMsg, Event.tick, Event.navDone true, Event.tick,
       Event.orderGoal "table-1",
       Event.orderGoal "table-2"]).m.delivery_order_received = true ∧
    (run default_config
      [Event.button ⟨false, false⟩, Event.button ⟨true, false⟩, Event.tick,
       Event.localizedMsg, Event.tick, Event.navDone true, Event.tick,
       Event.orderGoal "table-1",
       Event.orderGoal "table-2"]).m.order_results = [] := by
  exact ⟨rfl, rfl, rfl⟩

/-- Claim C4 amended: once the delivery is in progress (the machine has left
`AT_KITCHEN`), a further order request is rejected — a failure result goes
back and the pending destination, the received flag and the in-progress flag
are untouched; but while the machine is still `AT_KITCHEN` a second request
is accepted and overwrites the pending destination (counterexample above). -/
theorem order_rejected_while_in_progress (m : Machine) (loc : String)
    (hp : m.order_in_progress = true) (h : m.current_state ≠ .AT_KITCHEN) :
    (process_deliver_order m loc).delivery_location = m.delivery_location ∧
    (process_deliver_order m loc).delivery_order_received =
      m.delivery_order_received ∧
    (process_deliver_order m loc).order_in_progress = true ∧
    (process_deliver_order m loc).order_results = m.order_results ++
      [{ message := "Robot is not at kitchen. Ignore the order!",
         success := false }] := by
  simp [process_deliver_order, h, hp]

/-- Witness for the amended C4: the machine that has just accepted the
table-1 order and started the delivery (state `GOTO_TABLE`, order in
progress) rejects a request for table-2 without touching the pending
order. -/
theorem order_rejected_while_in_progress_witness :
    (process_deliver_order (run default_config
      [Event.button ⟨false, false⟩, Event.button ⟨true, false⟩, Event.tick,
       Event.localizedMsg, Event.tick, Event.navDone true, Event.tick,
       Event.orderGoal "table-1", Event.tick]).m "table-2").order_in_progress
      = true := by
  exact (order_rejected_while_in_progress _ "table-2" (by decide)
    (by decide)).2.2.1

/-- Claim C6: an order submitted while the current state is not `AT_KITCHEN`
is finished with `success = false` and the explanatory message, and the
pending-order record (delivery location, order-received flag) is left
unchanged. -/
theorem order_rejected_away_from_kitchen (m : Machine) (loc : String)
    (h : m.current_state ≠ .AT_KITCHEN) :
    (process_deliver_order m loc).order_results = m.order_results ++
      [{ message := "Robot is not at kitchen. Ignore the order!",
         success := false }] ∧
    (process_deliver_order m loc).delivery_location = m.delivery_location ∧
    (process_deliver_order m loc).delivery_order_received =
      m.delivery_order_received := by
  simp [process_deliver_order, h]

/-- Witness for C6: the freshly constructed machine (state `ON_ERROR`)
rejects an order for table-9 with the explanatory failure result. -/
theorem order_rejected_away_from_kitchen_witness :
    (process_deliver_order init_machine "table-9").order_results =
      init_machine.order_results ++
        [{ message := "Robot is not at kitchen. Ignore the order!",
           success := false }] := by
  exact (order_rejected_away_from_kitchen init_machine "table-9"
    (by decide)).1

/-! ## C9: the initialization handler -/

/-- Claim C9 counterexample: the initialization handler can run with the
localized flag true and issue no navigation request.  Reachable run: green
edge moves the fresh machine to `INITIALIZATION`, the localization callback
fires before the first tick, so the tick enters with the localized flag true
but the already-requested latch clear; the first block re-requests
localization and clears the flag, and no navigation goal is sent — the state
stays `INITIALIZATION`. -/
theorem initialization_stale_localized_skips_request :
    (run default_config
      [Event.button ⟨false, false⟩, Event.button ⟨true, false⟩,
       Event.localizedMsg]).m.localized = true ∧
    (run default_config
      [Event.button ⟨false, false⟩, Event.button ⟨true, false⟩,
       Event.localizedMsg]).m.current_state = .INITIALIZATION ∧
    (run default_config
      [Event.button ⟨false, false⟩, Event.button ⟨true, false⟩,
       Event.localizedMsg, Event.tick]).m.nav_requests = [] ∧
    (run default_config
      [Event.button ⟨false, false⟩, Event.button ⟨true, false⟩,
       Event.localizedMsg, Event.tick]).m.current_state =
      .INITIALIZATION := by
  exact ⟨rfl, rfl, rfl, rfl⟩

/-- Claim C9 amended: when the initialization handler runs with the localized
flag true and the localization-already-requested latch set, it issues exactly
one navigation request — to kitchen, approach mode on, the configured retry
budget, the configured kitchen timeout, distance 0 — clears the latch, and
the state becomes `GOTO_KITCHEN` on the same tick. -/
theorem initialization_localized_issues_one_request (cfg : Config)
    (m : Machine) (hs : m.current_state = .INITIALIZATION)
    (hl : m.init_requested = true) (hz : m.localized = true) :
    (tick_handler cfg m).nav_requests = m.nav_requests ++
      [{ location := "kitchen", approach_type := .APPROACH_ON,
         num_retry := cfg.nav_retry, timeout := cfg.nav_kitchen_timeout,
         distance := 0 }] ∧
    (tick_handler cfg m).current_state = .GOTO_KITCHEN ∧
    (tick_handler cfg m).init_requested = false := by
  simp [tick_handler, hs, state_initialization, hl, hz, request_navigator,
    write_state]

/-- Witness for the amended C9: after green edge, a first tick (latch set)
and the localization callback, the next handler run sends the kitchen goal
and moves to `GOTO_KITCHEN`. -/
theorem initialization_localized_issues_one_request_witness :
    (tick_handler default_config (run default_config
      [Event.button ⟨false, false⟩, Event.button ⟨true, false⟩, Event.tick,
       Event.localizedMsg]).m).current_state = RobotState.GOTO_KITCHEN := by
  exact (initialization_localized_issues_one_request default_config _
    (by decide) (by decide) (by decide)).2.1

/-! ## C2: navigation failure forces the error state -/

theorem loop_iter_error (cfg : Config) (s : Sys)
    (h : s.m.current_state = .ON_ERROR) :
    (loop_iter cfg s).m.current_state = .ON_ERROR := by
  have hh : tick_handler cfg s.m = s.m := by
    simp [tick_handler, h, state_on_error]
  simp only [loop_iter, hh]
  split <;> simp [blink_current, logging_current, h]

/-- Claim C2: a terminal navigation failure delivered while a request is
outstanding and the machine is in any non-Error state immediately writes
`ON_ERROR` and raises the finished flag in the callback, and the state is
(still) `ON_ERROR` after the next control-loop tick. -/
theorem nav_failure_forces_error_by_next_tick (cfg : Config) (s : Sys)
    (ho : s.m.nav_outstanding = true) (hs : s.m.current_state ≠ .ON_ERROR) :
    (step cfg s (.navDone false)).m.current_state = .ON_ERROR ∧
    (step cfg s (.navDone false)).m.navigator_finished = some true ∧
    (step cfg (step cfg s (.navDone false)) .tick).m.current_state =
      .ON_ERROR := by
  have h1 : step cfg s (.navDone false) = { s with m := navigator_done s.m false } := by
    simp [step, ho]
  have h2 : (navigator_done s.m false).current_state = .ON_ERROR := by
    simp [navigator_done, write_state]
  refine ⟨by rw [h1]; exact h2, by rw [h1]; rfl, ?_⟩
  rw [h1]
  exact loop_iter_error cfg _ h2

/-- Witness for C2: in the run that reaches `GOTO_KITCHEN` with the kitchen
goal in flight, a terminal failure puts the machine in `ON_ERROR`, and it is
still there after the next tick. -/
theorem nav_failure_forces_error_by_next_tick_witness :
    (step default_config (step default_config (run default_config
      [Event.button ⟨false, false⟩, Event.button ⟨true, false⟩, Event.tick,
       Event.localizedMsg, Event.tick]) (.navDone false))
      .tick).m.current_state = .ON_ERROR := by
  exact (nav_failure_forces_error_by_next_tick default_config _
    (by decide) (by decide)).2.2

/-! ## C8: at most one state write per tick -/

theorem tick_handler_writes (cfg : Config) (m : Machine) :
    (tick_handler cfg m).state_writes.length ≤ m.state_writes.length + 1 := by
  cases h : m.current_state <;>
    simp only [tick_handler, h, state_initialization, state_goto_kitchen,
      state_at_kitchen, state_goto_table, state_at_table, state_on_error,
      request_navigator, write_state] <;>
    (repeat' split) <;> simp

/-- Claim C8: one control-loop iteration (the dispatched state handler, plus
the sub-rate logging and led blinking when due) writes the current-state
field at most once: the write log grows by at most one entry per tick. -/
theorem at_most_one_state_write_per_tick (cfg : Config) (s : Sys) :
    (loop_iter cfg s).m.state_writes.length ≤
      s.m.state_writes.length + 1 := by
  have hh := tick_handler_writes cfg s.m
  simp only [loop_iter]
  split
  · simpa [blink_writes, logging_writes] using hh
  · exact hh

/-! ## C3: the round-trip terminal result -/

/-- Claim C3 (code bug): in the full round trip — green edge, localization,
kitchen arrival, order table-3, table arrival, customer confirmation, return
to the kitchen — exactly one terminal result is reported to the order
gateway and the order is marked no longer in progress, but the result the
source builds carries `success := false` next to the message Delivery
Success, not the `success := true` the claim states. -/
theorem roundtrip_single_result_success_false :
    (run default_config
      [Event.button ⟨false, false⟩, Event.button ⟨true, false⟩, Event.tick,
       Event.localizedMsg, Event.tick, Event.navFeedback 1 "going" false,
       Event.navDone true, Event.tick, Event.orderGoal "table-3", Event.tick,
       Event.navDone true, Event.tick,
       Event.button ⟨false, false⟩, Event.button ⟨true, false⟩, Event.tick,
       Event.navDone true, Event.tick]).m.order_results =
      [{ message := "Delivery Success!", success := false }] ∧
    (run default_config
      [Event.button ⟨false, false⟩, Event.button ⟨true, false⟩, Event.tick,
       Event.localizedMsg, Event.tick, Event.navFeedback 1 "going" false,
       Event.navDone true, Event.tick, Event.orderGoal "table-3", Event.tick,
       Event.navDone true, Event.tick,
       Event.button ⟨false, false⟩, Event.button ⟨true, false⟩, Event.tick,
       Event.navDone true, Event.tick]).m.order_in_progress = false ∧
    (run default_config
      [Event.button ⟨false, false⟩, Event.button ⟨true, false⟩, Event.tick,
       Event.localizedMsg, Event.tick, Event.navFeedback 1 "going" false,
       Event.navDone true, Event.tick, Event.orderGoal "table-3", Event.tick,
       Event.navDone true, Event.tick,
       Event.button ⟨false, false⟩, Event.button ⟨true, false⟩, Event.tick,
       Event.navDone true, Event.tick]).m.current_state = .AT_KITCHEN := by
  exact ⟨rfl, rfl, rfl⟩

/-! ## C7: the sub-rate logging reads an attribute never initialised -/

/-- Claim C7 (code bug): a control-loop iteration can raise.  In the run that
accepts the order table-1 at the kitchen, the fourth tick both starts the
delivery (order in progress) and, being a sub-rate iteration, runs the
logging — which reads the navigation-feed attribute that no code path has
set yet (only the navigation feedback callback assigns it), so the iteration
raises; before that tick nothing had raised. -/
theorem logging_reads_unset_feed_attribute :
    (run default_config
      [Event.button ⟨false, false⟩, Event.button ⟨true, false⟩, Event.tick,
       Event.localizedMsg, Event.tick, Event.navDone true, Event.tick,
       Event.orderGoal "table-1"]).m.raised = false ∧
    (run default_config
      [Event.button ⟨false, false⟩, Event.button ⟨true, false⟩, Event.tick,
       Event.localizedMsg, Event.tick, Event.navDone true, Event.tick,
       Event.orderGoal "table-1"]).m.navigator_feed = none ∧
    (run default_config
      [Event.button ⟨false, false⟩, Event.button ⟨true, false⟩, Event.tick,
       Event.localizedMsg, Event.tick, Event.navDone true, Event.tick,
       Event.orderGoal "table-1", Event.tick]).m.order_in_progress = true ∧
    (run default_config
      [Event.button ⟨false, false⟩, Event.button ⟨true, false⟩, Event.tick,
       Event.localizedMsg, Event.tick, Event.navDone true, Event.tick,
       Event.orderGoal "table-1", Event.tick]).m.raised = true := by
  exact ⟨rfl, rfl, rfl, rfl⟩

/-! ## C5: at most one navigation request in flight -/

/-- Fields of the machine that the sub-rate logging never touches. -/
theorem logging_fields (m : Machine) :
    (logging m).double_request = m.double_request ∧
    (logging m).nav_outstanding = m.nav_outstanding ∧
    (logging m).navigator_finished = m.navigator_finished ∧
    (logging m).delivery_order_received = m.delivery_order_received ∧
    (logging m).delivery_location = m.delivery_location ∧
    (logging m).nav_requests = m.nav_requests ∧
    (logging m).localize_requests = m.localize_requests := by
  simp only [logging]
  split <;> first
    | exact ⟨rfl, rfl, rfl, rfl, rfl, rfl, rfl⟩
    | (split <;> exact ⟨rfl, rfl, rfl, rfl, rfl, rfl, rfl⟩)

/-- The protocol invariant behind the single-outstanding-request guarantee:
the ghost double-request flag is clear; while a request is in flight the
machine is in one of the two travelling states with the finished flag
freshly cleared; and a received order always carries a destination. -/
def NavInv (m : Machine) : Prop :=
  m.double_request = false ∧
  (m.nav_outstanding = true →
    (m.current_state = .GOTO_KITCHEN ∨ m.current_state = .GOTO_TABLE) ∧
    m.navigator_finished = some false) ∧
  (m.delivery_order_received = true → m.delivery_location.isSome = true)

instance (m : Machine) : Decidable (NavInv m) := by
  unfold NavInv
  infer_instance

theorem navinv_logging (m : Machine) (h : NavInv m) : NavInv (logging m) := by
  obtain ⟨f1, f2, f3, f4, f5, f6, f7⟩ := logging_fields m
  unfold NavInv at h ⊢
  rw [f1, f2, f3, f4, f5, logging_current]
  exact h

theorem navinv_blink (m : Machine) (h : NavInv m) : NavInv (blink_leds m) := h

theorem navinv_tick_handler (cfg : Config) (m : Machine) (h : NavInv m) :
    NavInv (tick_handler cfg m) := by
  obtain ⟨hd, ho, hr⟩ := h
  cases hs : m.current_state <;>
    simp only [tick_handler, hs, state_initialization, state_goto_kitchen,
      state_at_kitchen, state_goto_table, state_at_table, state_on_error,
      request_navigator, write_state] <;>
    (repeat' split) <;> unfold NavInv <;> refine ⟨?_, ?_, ?_⟩ <;>
    simp_all

theorem navinv_step (cfg : Config) (s : Sys) (e : Event) (h : NavInv s.m) :
    NavInv (step cfg s e).m := by
  cases e with
  | tick =>
    have h1 := navinv_tick_handler cfg s.m h
    simp only [step, loop_iter]
    split
    · exact navinv_blink _ (navinv_logging _ h1)
    · exact h1
  | button msg =>
    obtain ⟨hd, ho, hr⟩ := h
    simp only [step]
    cases hp : s.m.previous_button <;>
      simp only [process_button, hp, check_button_event, write_state] <;>
      (repeat' split) <;> unfold NavInv <;> refine ⟨?_, ?_, ?_⟩ <;>
      simp_all
  | localizedMsg => exact h
  | orderGoal loc =>
    obtain ⟨hd, ho, hr⟩ := h
    simp only [step, process_deliver_order]
    split <;> unfold NavInv <;> refine ⟨?_, ?_, ?_⟩ <;> simp_all
  | navDone success =>
    simp only [step]
    split
    · obtain ⟨hd, ho, hr⟩ := h
      simp only [navigator_done, write_state]
      (repeat' split) <;> unfold NavInv <;> refine ⟨?_, ?_, ?_⟩ <;>
        simp_all
    · exact h
  | navFeedback d msg r =>
    obtain ⟨hd, ho, hr⟩ := h
    simp only [step, navigator_feedback]
    split <;> exact ⟨hd, ho, hr⟩

theorem navinv_run (cfg : Config) (es : List Event) : NavInv (run cfg es).m := by
  have hgen : ∀ s : Sys, NavInv s.m → NavInv (es.foldl (step cfg) s).m := by
    induction es with
    | nil => intro s hs; exact hs
    | cons e es ih => intro s hs; exact ih _ (navinv_step cfg s e hs)
  exact hgen { m := init_machine, t := 2 } (by decide)

/-- Claim C5: in every reachable execution at most one navigation request is
outstanding — the ghost flag that latches when `send_goal` runs while a
previous goal has not yet received its terminal callback stays false over
every event sequence from construction. -/
theorem never_two_navigation_requests_in_flight (cfg : Config)
    (es : List Event) : (run cfg es).m.double_request = false :=
  (navinv_run cfg es).1

/-! ## C10: error state until the first green press -/

/-- An event that involves no green-button press (a button sample with the
green channel low, or any non-button event). -/
def no_green_press : Event → Bool
  | .button msg => !msg.green
  | _ => true

/-- The holding invariant before the first green press: error state, no
localization request, no navigation goal ever sent. -/
def ErrInv (m : Machine) : Prop :=
  m.current_state = .ON_ERROR ∧ m.localize_requests = 0 ∧
  m.nav_requests = [] ∧ m.nav_outstanding = false

instance (m : Machine) : Decidable (ErrInv m) := by
  unfold ErrInv
  infer_instance

theorem errinv_step (cfg : Config) (s : Sys) (e : Event)
    (hg : no_green_press e = true) (h : ErrInv s.m) :
    ErrInv (step cfg s e).m := by
  obtain ⟨h1, h2, h3, h4⟩ := h
  cases e with
  | tick =>
    have hh : tick_handler cfg s.m = s.m := by
      simp [tick_handler, h1, state_on_error]
    obtain ⟨f1, f2, f3, f4, f5, f6, f7⟩ := logging_fields s.m
    simp only [step, loop_iter, hh]
    split
    · exact ⟨by rw [blink_current, logging_current]; exact h1,
        by simpa [blink_leds, f7] using h2,
        by simpa [blink_leds, f6] using h3,
        by simpa [blink_leds, f2] using h4⟩
    · exact ⟨h1, h2, h3, h4⟩
  | button msg =>
    have hmg : msg.green = false := by
      revert hg
      simp [no_green_press]
    simp only [step]
    cases hp : s.m.previous_button <;>
      simp only [process_button, hp, check_button_event, write_state, hmg] <;>
      unfold ErrInv <;> simp_all
  | localizedMsg => exact ⟨h1, h2, h3, h4⟩
  | orderGoal loc =>
    simp only [step, process_deliver_order]
    split <;> unfold ErrInv <;> simp_all
  | navDone success =>
    simp only [step, h4]
    simp [ErrInv, h1, h2, h3, h4]
  | navFeedback d msg r =>
    simp only [step, navigator_feedback]
    split <;> exact ⟨h1, h2, h3, h4⟩

/-- Claim C10: immediately after construction the current state is
`ON_ERROR` (not `INITIALIZATION`), and over any event sequence containing no
green-button press every tick runs the no-op error handler: the state stays
`ON_ERROR`, and the machine requests neither localization nor navigation. -/
theorem error_until_green_press (cfg : Config) (es : List Event)
    (hg : es.all no_green_press = true) :
    init_machine.current_state = .ON_ERROR ∧
    (run cfg es).m.current_state = .ON_ERROR ∧
    (run cfg es).m.localize_requests = 0 ∧
    (run cfg es).m.nav_requests = [] := by
  have hgen : ∀ es' : List Event, es'.all no_green_press = true →
      ∀ s : Sys, ErrInv s.m → ErrInv (es'.foldl (step cfg) s).m := by
    intro es'
    induction es' with
    | nil => intro _ s hs; exact hs
    | cons e es' ih =>
      intro hall s hs
      simp only [List.all_cons, Bool.and_eq_true] at hall
      exact ih hall.2 _ (errinv_step cfg s e hall.1 hs)
  have h := hgen es hg { m := init_machine, t := 2 } (by decide)
  exact ⟨rfl, h.1, h.2.1, h.2.2.1⟩

/-- Witness for C10: a run with a tick, a localization callback, an order, a
red-only button sample, a navigation callback and another tick — no green
press — stays in `ON_ERROR` with no localization or navigation request. -/
theorem error_until_green_press_witness :
    (run default_config
      [Event.tick, Event.localizedMsg, Event.orderGoal "t",
       Event.button ⟨false, true⟩, Event.navDone true,
       Event.tick]).m.current_state = .ON_ERROR ∧
    (run default_config
      [Event.tick, Event.localizedMsg, Event.orderGoal "t",
       Event.button ⟨false, true⟩, Event.navDone true,
       Event.tick]).m.nav_requests = [] := by
  have h := error_until_green_press default_config
    [Event.tick, Event.localizedMsg, Event.orderGoal "t",
     Event.button ⟨false, true⟩, Event.navDone true, Event.tick]
    (by decide)
  exact ⟨h.2.1, h.2.2.2⟩
